import Mathlib

/- Verification of the progress core of the brain habit tracker
   (src/app.py): streak computation, distraction classification, stage
   conditions, badge updates, mastery projection and the daily
   submission pipeline. Calendar dates are modeled as integer day
   numbers (date arithmetic with timedelta collapses to integer
   subtraction), SQLite REAL columns as rationals, the two SQLite
   tables as association lists, and the python set of badge strings as
   a Finset of strings. Python rounds half to even; the embedding uses
   the Mathlib round (half up); no statement below depends on an
   exact-half case. -/

namespace Brain

/-- One row of the logs table: distraction_free, hours, exercise, diet,
early_morning, keyed by the primary key (user_id, log_date). -/
structure LogRow where
  distraction_free : Bool
  hours : ℚ
  exercise : Bool
  diet : Bool
  early_morning : Bool
deriving DecidableEq

abbrev LogKey := String × Int

/-- SELECT by primary key on the logs table. -/
def lookupLog : List (LogKey × LogRow) → LogKey → Option LogRow
  | [], _ => none
  | (k, r) :: rest, key => if k = key then some r else lookupLog rest key

/-- INSERT OR REPLACE on the logs table (primary key (user_id, log_date)). -/
def upsertLog (l : List (LogKey × LogRow)) (k : LogKey) (r : LogRow) :
    List (LogKey × LogRow) :=
  (k, r) :: l.filter (fun p => decide (p.1 ≠ k))

/-- Loop condition of compute_streak (src/app.py 172-174): the fetched
row exists and its distraction_free column equals 1. -/
def dayCompliant (logs : List (LogKey × LogRow)) (user : String) (d : Int) : Bool :=
  match lookupLog logs (user, d) with
  | some r => r.distraction_free
  | none => false

/-- The loop of compute_streak: fuel counts the remaining iterations of
range(0, 365); d is the day the current iteration inspects. -/
def streakAux (logs : List (LogKey × LogRow)) (user : String) : Int → Nat → Nat
  | _, 0 => 0
  | d, fuel + 1 =>
    if dayCompliant logs user d then streakAux logs user (d - 1) fuel + 1 else 0

/-- compute_streak (src/app.py 165-178): walk backward from today, at
most 365 days, counting consecutive distraction-free logged days. -/
def compute_streak (logs : List (LogKey × LogRow)) (user : String) (today : Int) : Nat :=
  streakAux logs user today 365

lemma streakAux_le (logs : List (LogKey × LogRow)) (user : String) :
    ∀ (fuel : Nat) (d : Int), streakAux logs user d fuel ≤ fuel := by
  intro fuel
  induction fuel with
  | zero => intro d; simp [streakAux]
  | succ n ih =>
    intro d
    by_cases h : dayCompliant logs user d
    · have := ih (d - 1)
      simp only [streakAux, h, if_true]
      omega
    · simp [streakAux, h]

lemma streakAux_compliant (logs : List (LogKey × LogRow)) (user : String) :
    ∀ (fuel : Nat) (d : Int) (j : Nat), j < streakAux logs user d fuel →
      dayCompliant logs user (d - (j : Int)) = true := by
  intro fuel
  induction fuel with
  | zero => intro d j hj; simp [streakAux] at hj
  | succ n ih =>
    intro d j hj
    by_cases h : dayCompliant logs user d
    · simp only [streakAux, h, if_true] at hj
      cases j with
      | zero => simpa using h
      | succ i =>
        have hi : i < streakAux logs user (d - 1) n := by omega
        have := ih (d - 1) i hi
        have heq : d - ((i + 1 : Nat) : Int) = d - 1 - (i : Int) := by push_cast; ring
        rw [heq]
        exact this
    · simp [streakAux, h] at hj

lemma streakAux_stop (logs : List (LogKey × LogRow)) (user : String) :
    ∀ (fuel : Nat) (d : Int), streakAux logs user d fuel < fuel →
      dayCompliant logs user (d - (streakAux logs user d fuel : Int)) = false := by
  intro fuel
  induction fuel with
  | zero => intro d hd; omega
  | succ n ih =>
    intro d hd
    by_cases h : dayCompliant logs user d
    · simp only [streakAux, h, if_true] at hd ⊢
      have hrec : streakAux logs user (d - 1) n < n := by omega
      have := ih (d - 1) hrec
      have heq : d - ((streakAux logs user (d - 1) n + 1 : Nat) : Int)
          = d - 1 - (streakAux logs user (d - 1) n : Int) := by push_cast; ring
      rw [heq]
      exact this
    · simp only [streakAux, h, if_false]
      simpa using h

lemma streakAux_nil (user : String) :
    ∀ (fuel : Nat) (d : Int), streakAux [] user d fuel = 0 := by
  intro fuel d
  cases fuel with
  | zero => rfl
  | succ n => simp [streakAux, dayCompliant, lookupLog]

lemma streakAux_zero_of_break (logs : List (LogKey × LogRow)) (user : String)
    (d : Int) (fuel : Nat) (h : dayCompliant logs user d = false) :
    streakAux logs user d (fuel + 1) = 0 := by
  simp [streakAux, h]

/-- Claim C1: compute_streak walks backward day by day from asOf
inclusive and returns the count of consecutive calendar days with a
compliant (logged and distraction-free) entry, stopping at the first
day that is not compliant; with no history it returns 0, and the
result never exceeds the 365-day search window. -/
theorem compute_streak_spec (logs : List (LogKey × LogRow)) (user : String) (today : Int) :
    compute_streak logs user today ≤ 365 ∧
    (∀ j : Nat, j < compute_streak logs user today →
      dayCompliant logs user (today - (j : Int)) = true) ∧
    (compute_streak logs user today < 365 →
      dayCompliant logs user (today - (compute_streak logs user today : Int)) = false) ∧
    (logs = [] → compute_streak logs user today = 0) := by
  refine ⟨streakAux_le logs user 365 today,
    fun j hj => streakAux_compliant logs user 365 today j hj,
    fun h => streakAux_stop logs user 365 today h,
    fun h => ?_⟩
  subst h
  exact streakAux_nil user 365 today

/-- Witness for compute_streak_spec at a concrete input. -/
theorem compute_streak_spec_witness :
    compute_streak [] "u" 0 = 0 ∧ compute_streak [] "u" 0 ≤ 365 :=
  ⟨(compute_streak_spec [] "u" 0).2.2.2 rfl, (compute_streak_spec [] "u" 0).1⟩

/-- A history holding a single distraction-free entry at day -1
(yesterday relative to day 0) and nothing at day 0. -/
def logsYesterdayOnly : List (LogKey × LogRow) :=
  [(("u", -1), { distraction_free := true, hours := 2, exercise := false,
                 diet := false, early_morning := false })]

/-- Counterexample to claim C7: on a history whose asOf day (day 0) has
no entry but whose previous day is distraction-free, compute_streak
returns 0, not the count of consecutive distraction-free days ending
at yesterday (which is 1 here): the walk does not skip to yesterday. -/
theorem compute_streak_today_missing_cex :
    lookupLog logsYesterdayOnly ("u", 0) = none ∧
    compute_streak logsYesterdayOnly "u" (-1) = 1 ∧
    compute_streak logsYesterdayOnly "u" 0 = 0 := by
  refine ⟨rfl, ?_, ?_⟩ <;> decide

/-- Claim C7 amended: whenever the asOf day has no entry,
compute_streak returns 0 — a missing today breaks the streak at once,
regardless of how many distraction-free days precede it. -/
theorem compute_streak_missing_asof (logs : List (LogKey × LogRow)) (user : String)
    (today : Int) (h : lookupLog logs (user, today) = none) :
    compute_streak logs user today = 0 := by
  have hc : dayCompliant logs user today = false := by
    simp [dayCompliant, h]
  exact streakAux_zero_of_break logs user today 364 hc

/-- Witness for compute_streak_missing_asof at a concrete input. -/
theorem compute_streak_missing_asof_witness :
    compute_streak logsYesterdayOnly "u" 5 = 0 :=
  compute_streak_missing_asof logsYesterdayOnly "u" 5 (by decide)

/- ----------------------------------------------------------------
   Distraction classification (src/app.py 38-42, 148-163)
   ---------------------------------------------------------------- -/

/-- DISTRACTION_KEYWORDS (src/app.py 38-42). -/
def DISTRACTION_KEYWORDS : List String :=
  ["social media", "facebook", "instagram", "tiktok", "youtube",
   "gaming", "netflix", "tv", "scrolling", "procrastinate", "procrastination",
   "twitter", "snapchat", "reddit"]

/-- The negatives list of detect_distractions (src/app.py 159). -/
def NEGATIVE_PHRASES : List String :=
  ["addicted", "can\x27t stop", "cant stop", "cannot stop", "wasting",
   "waste time", "can\x27t focus", "cant focus"]

/-- The literal neutral tokens of detect_distractions (src/app.py 152). -/
def NEUTRAL_TOKENS : List String := ["none", "no", "n/a", "na", "nothing"]

/-- Helper for python substring containment: does the needle occur as a
contiguous sublist of the haystack. -/
def subAux (needle : List Char) : List Char → Bool
  | [] => needle.isPrefixOf []
  | c :: rest => needle.isPrefixOf (c :: rest) || subAux needle rest

/-- Python `needle in hay` on strings. -/
def containsSub (hay needle : String) : Bool := subAux needle.data hay.data

/-- Python str.strip over the character list. -/
def trimChars (l : List Char) : List Char :=
  ((l.dropWhile Char.isWhitespace).reverse.dropWhile Char.isWhitespace).reverse

/-- Python text.strip().lower() (ASCII case folding). -/
def normalizeText (text : String) : String :=
  String.mk ((trimChars text.data).map Char.toLower)

/-- detect_distractions (src/app.py 148-163): empty text and neutral
tokens are distraction-free; otherwise any keyword or negative phrase
occurring as a substring signals a distraction. -/
def detect_distractions (text : String) : Bool :=
  if text = "" then false
  else
    let t := normalizeText text
    if t ∈ NEUTRAL_TOKENS then false
    else if DISTRACTION_KEYWORDS.any (fun kw => containsSub t kw) then true
    else if NEGATIVE_PHRASES.any (fun p => containsSub t p) then true
    else false

lemma detect_distractions_eq_any (text : String) (h1 : text ≠ "")
    (h2 : normalizeText text ∉ NEUTRAL_TOKENS) :
    detect_distractions text =
      (DISTRACTION_KEYWORDS.any (fun kw => containsSub (normalizeText text) kw) ||
       NEGATIVE_PHRASES.any (fun p => containsSub (normalizeText text) p)) := by
  simp only [detect_distractions, h1, if_false, h2, ite_false]
  cases DISTRACTION_KEYWORDS.any (fun kw => containsSub (normalizeText text) kw) <;>
    cases NEGATIVE_PHRASES.any (fun p => containsSub (normalizeText text) p) <;> simp

/-- Claim C6: the classifier normalizes to lowercase and trims, maps
the literal neutral tokens (and empty input) to distraction-free, and
otherwise reports a distraction exactly when the normalized text
contains a member of the fixed keyword list or of the fixed
negative-admission phrase list. -/
theorem detect_distractions_spec (text : String) :
    (text = "" → detect_distractions text = false) ∧
    (normalizeText text ∈ NEUTRAL_TOKENS → detect_distractions text = false) ∧
    (text ≠ "" → normalizeText text ∉ NEUTRAL_TOKENS →
      (detect_distractions text = true ↔
        (∃ kw ∈ DISTRACTION_KEYWORDS, containsSub (normalizeText text) kw = true) ∨
        (∃ p ∈ NEGATIVE_PHRASES, containsSub (normalizeText text) p = true))) := by
  refine ⟨fun h => ?_, fun h => ?_, fun h1 h2 => ?_⟩
  · simp [detect_distractions, h]
  · by_cases he : text = ""
    · simp [detect_distractions, he]
    · simp [detect_distractions, he, h]
  · rw [detect_distractions_eq_any text h1 h2]
    simp [List.any_eq_true]

/-- Witness for detect_distractions_spec at concrete inputs. -/
theorem detect_distractions_spec_witness :
    detect_distractions "tiktok" = true ∧ detect_distractions "none" = false :=
  ⟨((detect_distractions_spec "tiktok").2.2 (by decide) (by decide)).mpr
      (Or.inl ⟨"tiktok", by decide, by decide⟩),
    (detect_distractions_spec "none").2.1 (by decide)⟩

/- ----------------------------------------------------------------
   Mastery projection (src/app.py 134-146)
   ---------------------------------------------------------------- -/

/-- The calibration hours of predict_progress (src/app.py 136). -/
def CALIB_HOURS : List ℚ := [1, 2, 3, 4, 5, 6, 8]

/-- The calibration targets 10000 / h (src/app.py 137). -/
def CALIB_DAYS : List ℚ := CALIB_HOURS.map (fun h => 10000 / h)

def qsum (l : List ℚ) : ℚ := l.foldr (fun a b => a + b) 0

def sampleSize : ℚ := (CALIB_HOURS.length : ℚ)

def sumX : ℚ := qsum CALIB_HOURS

def sumY : ℚ := qsum CALIB_DAYS

def sumXX : ℚ := qsum (CALIB_HOURS.map (fun x => x * x))

def sumXY : ℚ := qsum (List.zipWith (fun x y => x * y) CALIB_HOURS CALIB_DAYS)

/-- Ordinary least-squares slope of the LinearRegression fit of
CALIB_DAYS against CALIB_HOURS. -/
def olsSlope : ℚ := (sampleSize * sumXY - sumX * sumY) / (sampleSize * sumXX - sumX * sumX)

/-- Ordinary least-squares intercept of the same fit. -/
def olsIntercept : ℚ := (sumY - olsSlope * sumX) / sampleSize

/-- model.predict for a single input: the fitted regression line. -/
def predictedDays (h : ℚ) : ℚ := olsIntercept + olsSlope * h

/-- Python round(x, 1), with half rounding up instead of to even. -/
def round1 (x : ℚ) : ℚ := ((round (x * 10) : ℤ) : ℚ) / 10

/-- Python round(x, 2), with half rounding up instead of to even. -/
def round2 (x : ℚ) : ℚ := ((round (x * 100) : ℤ) : ℚ) / 100

/-- predict_progress (src/app.py 134-146): no estimate when
hours_per_day is nonpositive; otherwise months and years remaining
from the regression estimate, with the invested-hours deduction
divided by max 1 hours_per_day, plus the 30-day look-ahead total. -/
def predict_progress (hours_per_day : ℚ) (total_hours : ℚ) : Option (ℚ × ℚ) × ℚ :=
  if hours_per_day ≤ 0 then (none, total_hours)
  else
    let days_to_master := predictedDays hours_per_day
    let days_remaining := max 0 (days_to_master - total_hours / max 1 hours_per_day)
    let months := round1 (days_remaining / 30)
    let years := round2 (months / 12)
    (some (months, years), total_hours + hours_per_day * 30)

/-- Modelled from the claim text, not from the source: days remaining
with the invested-hours deduction divided by hoursPerDay itself, as
claim C5 states it. The source divides by max 1 hoursPerDay instead. -/
def specDaysRemaining (h total : ℚ) : ℚ := max 0 (predictedDays h - total / h)

lemma round1_nonneg (x : ℚ) (hx : 0 ≤ x) : 0 ≤ round1 x := by
  have h10 : (0 : ℚ) ≤ x * 10 := by nlinarith
  have hr : (0 : ℤ) ≤ round (x * 10) := by
    rw [round_eq]
    exact Int.le_floor.mpr (by push_cast; linarith)
  exact div_nonneg (by exact_mod_cast hr) (by norm_num)

/-- Counterexample to claim C5: at hoursPerDay = 1/2 and
totalHoursInvested = 100 the source divides the invested hours by
max 1 (1/2) = 1, not by 1/2, so the reported months are 247.1 while
the formula of the claim gives 243.7. -/
theorem predict_progress_divisor_cex :
    predict_progress (1/2) 100 = (some (2471/10, 2059/100), 115) ∧
    round1 (specDaysRemaining (1/2) 100 / 30) = 2437/10 ∧
    (2471/10 : ℚ) ≠ 2437/10 := by
  refine ⟨?_, ?_, by norm_num⟩ <;>
    norm_num [predict_progress, specDaysRemaining, predictedDays, olsIntercept,
      olsSlope, sampleSize, sumX, sumY, sumXX, sumXY, qsum, CALIB_HOURS,
      CALIB_DAYS, round1, round2, round_eq, Int.floor_eq_iff]

/-- Claim C5 amended: for hoursPerDay ≤ 0 predict_progress returns the
defined no-estimate result; for hoursPerDay > 0 it returns months =
round1 of daysRemaining / 30 where daysRemaining =
max 0 (predictedDays hoursPerDay - totalHoursInvested / max 1 hoursPerDay)
(the divisor is clamped below at 1, unlike the claim), years = round2
of months / 12, the new total equals total + 30 hoursPerDay, and the
months are always nonnegative. -/
theorem predict_progress_spec (h total : ℚ) :
    (h ≤ 0 → predict_progress h total = (none, total)) ∧
    (0 < h →
      predict_progress h total =
        (some (round1 (max 0 (predictedDays h - total / max 1 h) / 30),
               round2 (round1 (max 0 (predictedDays h - total / max 1 h) / 30) / 12)),
         total + h * 30) ∧
      0 ≤ round1 (max 0 (predictedDays h - total / max 1 h) / 30)) := by
  constructor
  · intro hle
    simp [predict_progress, hle]
  · intro hpos
    have hne : ¬ h ≤ 0 := not_le.mpr hpos
    refine ⟨by simp [predict_progress, hne], ?_⟩
    exact round1_nonneg _ (div_nonneg (le_max_left 0 _) (by norm_num))

/-- Witness for predict_progress_spec at concrete inputs. -/
theorem predict_progress_spec_witness :
    predict_progress (-1) 5 = (none, 5) ∧
    0 ≤ round1 (max 0 (predictedDays 4 - 0 / max 1 4) / 30) :=
  ⟨(predict_progress_spec (-1) 5).1 (by norm_num),
    ((predict_progress_spec 4 0).2 (by norm_num)).2⟩

/- ----------------------------------------------------------------
   Stage conditions (src/app.py 278-292)
   ---------------------------------------------------------------- -/

def keepGoingMsg : String := "Keep going — follow the daily plan to reach the next stage."

/-- check_stage_conditions (src/app.py 278-292): Gold first, then
Platinum, then Silver; otherwise no stage and the keep-going message. -/
def check_stage_conditions (hours_today : ℚ) (distraction_free exercise diet early_morning : Bool)
    (streak_days : Int) : Option String × String :=
  if 6 ≤ hours_today ∧ distraction_free = true ∧ exercise = true ∧ early_morning = true ∧
      60 ≤ streak_days then
    (some "Gold", "🔥 Gold achieved: 60 days, 6 hrs early morning + exercise + distraction-free")
  else if 4 ≤ hours_today ∧ distraction_free = true ∧ exercise = true ∧ diet = true ∧
      30 ≤ streak_days then
    (some "Platinum", "🏆 Platinum achieved: 30 days, 4 hrs/day + exercise + diet + distraction-free")
  else if 2 ≤ hours_today ∧ distraction_free = true ∧ 15 ≤ streak_days then
    (some "Silver", "🥉 Silver achieved: 15 days, 2 hrs/day + distraction-free")
  else (none, keepGoingMsg)

/-- Ordering of stages, Gold highest. -/
def stageRank (s : String) : Nat :=
  if s = "Gold" then 3 else if s = "Platinum" then 2 else if s = "Silver" then 1 else 0

/-- The conditions of the stage table: a named stage is satisfied by
the submission and the current streak. -/
def stageSat (s : String) (hours_today : ℚ) (df ex diet em : Bool) (streak : Int) : Prop :=
  (s = "Gold" ∧ 6 ≤ hours_today ∧ df = true ∧ ex = true ∧ em = true ∧ 60 ≤ streak) ∨
  (s = "Platinum" ∧ 4 ≤ hours_today ∧ df = true ∧ ex = true ∧ diet = true ∧ 30 ≤ streak) ∨
  (s = "Silver" ∧ 2 ≤ hours_today ∧ df = true ∧ 15 ≤ streak)

lemma stageRank_le_three (s : String) : stageRank s ≤ 3 := by
  unfold stageRank
  split_ifs <;> omega

/-- Claim C2: the stage check returns the highest stage whose
conditions are all satisfied by the submission and the current streak
(checking Gold, then Platinum, then Silver, with no requirement of
having passed lower stages first), and when no threshold is met it
returns no stage together with the informational keep-going message. -/
theorem check_stage_conditions_spec (hours_today : ℚ) (df ex diet em : Bool) (streak : Int) :
    (∀ s : String, (check_stage_conditions hours_today df ex diet em streak).1 = some s →
      stageSat s hours_today df ex diet em streak ∧
      ∀ s' : String, stageSat s' hours_today df ex diet em streak →
        stageRank s' ≤ stageRank s) ∧
    ((check_stage_conditions hours_today df ex diet em streak).1 = none →
      (∀ s : String, ¬ stageSat s hours_today df ex diet em streak) ∧
      (check_stage_conditions hours_today df ex diet em streak).2 = keepGoingMsg) := by
  unfold check_stage_conditions
  split_ifs with hG hP hS
  · refine ⟨fun s hs => ?_, fun hnone => by simp at hnone⟩
    have hsEq : s = "Gold" := by simpa using hs.symm
    subst hsEq
    refine ⟨Or.inl ⟨rfl, hG⟩, fun s' _ => ?_⟩
    have h3 : stageRank "Gold" = 3 := by decide
    rw [h3]
    exact stageRank_le_three s'
  · refine ⟨fun s hs => ?_, fun hnone => by simp at hnone⟩
    have hsEq : s = "Platinum" := by simpa using hs.symm
    subst hsEq
    refine ⟨Or.inr (Or.inl ⟨rfl, hP⟩), fun s' hsat => ?_⟩
    rcases hsat with ⟨rfl, hc⟩ | ⟨rfl, hc⟩ | ⟨rfl, hc⟩
    · exact absurd hc hG
    · decide
    · decide
  · refine ⟨fun s hs => ?_, fun hnone => by simp at hnone⟩
    have hsEq : s = "Silver" := by simpa using hs.symm
    subst hsEq
    refine ⟨Or.inr (Or.inr ⟨rfl, hS⟩), fun s' hsat => ?_⟩
    rcases hsat with ⟨rfl, hc⟩ | ⟨rfl, hc⟩ | ⟨rfl, hc⟩
    · exact absurd hc hG
    · exact absurd hc hP
    · decide
  · refine ⟨fun s hs => by simp at hs, fun _ => ⟨fun s hsat => ?_, rfl⟩⟩
    rcases hsat with ⟨rfl, hc⟩ | ⟨rfl, hc⟩ | ⟨rfl, hc⟩
    · exact absurd hc hG
    · exact absurd hc hP
    · exact absurd hc hS

/-- Witness for check_stage_conditions_spec at a concrete input. -/
theorem check_stage_conditions_spec_witness :
    stageSat "Gold" 6 true true true true 60 ∧
    stageRank "Silver" ≤ stageRank "Gold" :=
  ⟨(((check_stage_conditions_spec 6 true true true true 60).1 "Gold" (by decide))).1,
   (((check_stage_conditions_spec 6 true true true true 60).1 "Gold" (by decide))).2 "Silver"
     (Or.inr (Or.inr ⟨rfl, by norm_num, rfl, by norm_num⟩))⟩

/- ----------------------------------------------------------------
   Badge computation (src/app.py 27-36, 180-210) and the stage badge
   block of main (src/app.py 372-385)
   ---------------------------------------------------------------- -/

/-- DISTRACTION_THRESHOLDS (src/app.py 30): tier name to streak days. -/
def DISTRACTION_THRESHOLDS (tier : String) : Int :=
  if tier = "gold" then 60 else if tier = "platinum" then 30
  else if tier = "silver" then 15 else 0

/-- MASTERY_THRESHOLDS (src/app.py 32-36): tier name to
(hours per day, streak days). -/
def MASTERY_THRESHOLDS (tier : String) : ℚ × Int :=
  if tier = "gold" then (6, 60) else if tier = "platinum" then (4, 30)
  else if tier = "silver" then (2, 15) else (0, 0)

/-- The cumulative-hours cut used by update_badges: required hours per
day times required days for the tier. -/
def masteryCut (tier : String) : ℚ :=
  (MASTERY_THRESHOLDS tier).1 * ((MASTERY_THRESHOLDS tier).2 : ℚ)

/-- The distraction badge added by the if/elif chain of update_badges
(src/app.py 192-197). -/
def newDistractionBadges (streak_days : Int) : Finset String :=
  if DISTRACTION_THRESHOLDS "gold" ≤ streak_days then {"Gold (Distraction-Free)"}
  else if DISTRACTION_THRESHOLDS "platinum" ≤ streak_days then {"Platinum (Distraction-Free)"}
  else if DISTRACTION_THRESHOLDS "silver" ≤ streak_days then {"Silver (Distraction-Free)"}
  else ∅

/-- The mastery badge added by the if/elif chain of update_badges
(src/app.py 200-205). -/
def newMasteryBadges (total_hours : ℚ) : Finset String :=
  if masteryCut "gold" ≤ total_hours then {"Gold (Mastery)"}
  else if masteryCut "platinum" ≤ total_hours then {"Platinum (Mastery)"}
  else if masteryCut "silver" ≤ total_hours then {"Silver (Mastery)"}
  else ∅

/-- update_badges (src/app.py 180-210): the stored badge set becomes
the union of the existing badges with the newly computed ones. -/
def update_badges (streak_days : Int) (total_hours : ℚ) (existing : Finset String) :
    Finset String :=
  existing ∪ (newDistractionBadges streak_days ∪ newMasteryBadges total_hours)

/-- One row of the users table (src/app.py 53-65). -/
structure UserRow where
  display_name : String
  field : String
  hour_stage : Int
  total_hours : ℚ
  streak_days : Int
  badges : Finset String
  last_check : Int
  interests : String
deriving DecidableEq

/-- The badge string appended by main for an earned stage
(src/app.py 376). -/
def stageBadgeName (stage : String) : String := stage ++ " Stage"

/-- The stage badge block of main (src/app.py 373-385): when a stage
was earned and its badge is not yet held, add it and announce
(Bool result true); otherwise leave the badges as they are. -/
def userStageBadgeStep (u : UserRow) (stage_earned : Option String) : UserRow × Bool :=
  match stage_earned with
  | none => (u, false)
  | some st =>
    if stageBadgeName st ∈ u.badges then (u, false)
    else ({ u with badges := insert (stageBadgeName st) u.badges }, true)

/-- update_badges acting on a full user row: only the badges column is
written (src/app.py 208). -/
def userUpdateBadges (u : UserRow) : UserRow :=
  { u with badges := update_badges u.streak_days u.total_hours u.badges }

/-- The INSERT branch of create_or_update_user (src/app.py 231-232):
a fresh user starts at hour_stage 1 with zero totals and no badges. -/
def create_user_row (display_name field : String) (today : Int) (interests : String) :
    UserRow :=
  { display_name := display_name, field := field, hour_stage := 1, total_hours := 0,
    streak_days := 0, badges := ∅, last_check := today, interests := interests }

/-- Claim C3: badge storage is monotonically growing — update_badges
never removes an existing badge and the stage badge block only ever
inserts — and re-qualifying for an already-held stage badge is a
no-op that neither duplicates the badge nor re-announces it, so each
stage badge is issued at most once. -/
theorem badges_monotone_once :
    (∀ (s : Int) (t : ℚ) (ex : Finset String), ex ⊆ update_badges s t ex) ∧
    (∀ (u : UserRow) (st : Option String), u.badges ⊆ ((userStageBadgeStep u st).1).badges) ∧
    (∀ (u : UserRow) (st : String), stageBadgeName st ∈ u.badges →
      userStageBadgeStep u (some st) = (u, false)) ∧
    (∀ (u : UserRow) (st : String),
      userStageBadgeStep ((userStageBadgeStep u (some st)).1) (some st) =
        ((userStageBadgeStep u (some st)).1, false)) := by
  refine ⟨fun s t ex => Finset.subset_union_left, fun u st => ?_, fun u st h => ?_, fun u st => ?_⟩
  · cases st with
    | none => exact Finset.Subset.refl _
    | some s =>
      by_cases h : stageBadgeName s ∈ u.badges
      · simp [userStageBadgeStep, h]
      · simp only [userStageBadgeStep, h, if_false]
        exact Finset.subset_insert _ _
  · simp [userStageBadgeStep, h]
  · by_cases h : stageBadgeName st ∈ u.badges
    · simp [userStageBadgeStep, h]
    · simp [userStageBadgeStep, h, Finset.mem_insert_self]

/-- A user who already holds the Silver stage badge. -/
def uSilverExample : UserRow :=
  { display_name := "Imran", field := "Cricket", hour_stage := 1, total_hours := 32,
    streak_days := 16, badges := {"Silver Stage"}, last_check := 0, interests := "" }

/-- Witness for badges_monotone_once at a concrete input. -/
theorem badges_monotone_once_witness :
    userStageBadgeStep uSilverExample (some "Silver") = (uSilverExample, false) :=
  badges_monotone_once.2.2.1 uSilverExample "Silver" (by decide)

/-- The three distraction-tier badge identifiers. -/
def distractionBadgeSet : Finset String :=
  {"Gold (Distraction-Free)", "Platinum (Distraction-Free)", "Silver (Distraction-Free)"}

/-- The three mastery-tier badge identifiers. -/
def masteryBadgeSet : Finset String :=
  {"Gold (Mastery)", "Platinum (Mastery)", "Silver (Mastery)"}

lemma newDistractionBadges_card (s : Int) : (newDistractionBadges s).card ≤ 1 := by
  unfold newDistractionBadges
  split_ifs <;> simp

lemma newMasteryBadges_card (t : ℚ) : (newMasteryBadges t).card ≤ 1 := by
  unfold newMasteryBadges
  split_ifs <;> simp

lemma newDistractionBadges_sub (s : Int) : newDistractionBadges s ⊆ distractionBadgeSet := by
  unfold newDistractionBadges
  split_ifs <;> decide

lemma newMasteryBadges_sub (t : ℚ) : newMasteryBadges t ⊆ masteryBadgeSet := by
  unfold newMasteryBadges
  split_ifs <;> decide

lemma tracks_disjoint : distractionBadgeSet ∩ masteryBadgeSet = (∅ : Finset String) := by
  decide

lemma added_inter_distraction (s : Int) (t : ℚ) (ex : Finset String) :
    (update_badges s t ex \ ex) ∩ distractionBadgeSet ⊆ newDistractionBadges s := by
  intro x hx
  rw [Finset.mem_inter, Finset.mem_sdiff] at hx
  obtain ⟨⟨hxu, hxex⟩, hxd⟩ := hx
  rw [update_badges, Finset.mem_union, Finset.mem_union] at hxu
  rcases hxu with hex | hnew | hmast
  · exact absurd hex hxex
  · exact hnew
  · have hxm := newMasteryBadges_sub t hmast
    exact absurd (tracks_disjoint ▸ Finset.mem_inter.mpr ⟨hxd, hxm⟩)
      (Finset.not_mem_empty x)

lemma added_inter_mastery (s : Int) (t : ℚ) (ex : Finset String) :
    (update_badges s t ex \ ex) ∩ masteryBadgeSet ⊆ newMasteryBadges t := by
  intro x hx
  rw [Finset.mem_inter, Finset.mem_sdiff] at hx
  obtain ⟨⟨hxu, hxex⟩, hxm⟩ := hx
  rw [update_badges, Finset.mem_union, Finset.mem_union] at hxu
  rcases hxu with hex | hdist | hnew
  · exact absurd hex hxex
  · have hxd := newDistractionBadges_sub s hdist
    exact absurd (tracks_disjoint ▸ Finset.mem_inter.mpr ⟨hxd, hxm⟩)
      (Finset.not_mem_empty x)
  · exact hnew

/-- Claim C10: in one call to update_badges at most one new
distraction-free badge and at most one new mastery badge are added,
and within each track only the badge of the highest satisfied
threshold is added — an intermediate tier is never added while a
higher tier threshold also holds. -/
theorem update_badges_one_per_track (s : Int) (t : ℚ) (ex : Finset String) :
    ((update_badges s t ex \ ex) ∩ distractionBadgeSet).card ≤ 1 ∧
    ((update_badges s t ex \ ex) ∩ masteryBadgeSet).card ≤ 1 ∧
    ((60 : Int) ≤ s → "Platinum (Distraction-Free)" ∉ newDistractionBadges s ∧
      "Silver (Distraction-Free)" ∉ newDistractionBadges s) ∧
    ((30 : Int) ≤ s → "Silver (Distraction-Free)" ∉ newDistractionBadges s) ∧
    ((360 : ℚ) ≤ t → "Platinum (Mastery)" ∉ newMasteryBadges t ∧
      "Silver (Mastery)" ∉ newMasteryBadges t) ∧
    ((120 : ℚ) ≤ t → "Silver (Mastery)" ∉ newMasteryBadges t) := by
  have hD : DISTRACTION_THRESHOLDS "gold" = 60 := by decide
  have hDp : DISTRACTION_THRESHOLDS "platinum" = 30 := by decide
  have hg1 : MASTERY_THRESHOLDS "gold" = (6, 60) := rfl
  have hp1 : MASTERY_THRESHOLDS "platinum" = (4, 30) := rfl
  have hMg : masteryCut "gold" = 360 := by unfold masteryCut; rw [hg1]; norm_num
  have hMp : masteryCut "platinum" = 120 := by unfold masteryCut; rw [hp1]; norm_num
  refine ⟨le_trans (Finset.card_le_card (added_inter_distraction s t ex))
      (newDistractionBadges_card s),
    le_trans (Finset.card_le_card (added_inter_mastery s t ex)) (newMasteryBadges_card t),
    fun h => ?_, fun h => ?_, fun h => ?_, fun h => ?_⟩
  · simp only [newDistractionBadges, hD]
    rw [if_pos h]
    constructor <;> decide
  · simp only [newDistractionBadges, hD, hDp]
    by_cases hg : (60 : Int) ≤ s
    · rw [if_pos hg]; decide
    · rw [if_neg hg, if_pos h]; decide
  · simp only [newMasteryBadges, hMg]
    rw [if_pos h]
    constructor <;> decide
  · simp only [newMasteryBadges, hMg, hMp]
    by_cases hg : (360 : ℚ) ≤ t
    · rw [if_pos hg]; decide
    · rw [if_neg hg, if_pos h]; decide

/-- Witness for update_badges_one_per_track at a concrete input. -/
theorem update_badges_one_per_track_witness :
    "Platinum (Distraction-Free)" ∉ newDistractionBadges 60 ∧
    ((update_badges 60 360 ∅ \ ∅) ∩ distractionBadgeSet).card ≤ 1 :=
  ⟨((update_badges_one_per_track 60 360 ∅).2.2.1 (by norm_num)).1,
    (update_badges_one_per_track 60 360 ∅).1⟩

/- ----------------------------------------------------------------
   The daily submission pipeline (src/app.py 235-263) and the users
   table state
   ---------------------------------------------------------------- -/

/-- The two SQLite tables touched by a daily submission. -/
structure AppState where
  logs : List (LogKey × LogRow)
  users : List (String × UserRow)
deriving DecidableEq

/-- SELECT COALESCE(SUM(hours),0) FROM logs WHERE user_id=? -/
def userTotal (logs : List (LogKey × LogRow)) (user : String) : ℚ :=
  (logs.filter (fun p => decide (p.1.1 = user))).foldr (fun p acc => p.2.hours + acc) 0

/-- The error message of the users upsert in log_daily_entry:
its SQL text (src/app.py 257) reads
COALESCE((SELECT interests FROM users WHERE user_id?), ...), with the
= missing after user_id, so sqlite3 rejects the statement at prepare
time and raises OperationalError. -/
def usersUpsertError : String := "sqlite3.OperationalError: near ?: malformed users upsert"

/-- log_daily_entry (src/app.py 235-263). The log row is upserted and
committed (lines 239-243); the total and streak are recomputed (lines
246-248); then the users upsert (lines 255-258) is executed, but its
SQL text is malformed (WHERE user_id? with a missing =), so sqlite3
raises OperationalError at prepare time: the users table is never
written, update_badges (line 262) is never reached, and the exception
propagates to the caller while the committed log write persists. -/
def log_daily_entry (s : AppState) (user_id : String) (distraction_free : Bool)
    (hours : ℚ) (exercise diet early_morning : Bool) (today : Int) :
    AppState × Except String (List String) :=
  let logs1 := upsertLog s.logs (user_id, today)
    { distraction_free := distraction_free, hours := hours, exercise := exercise,
      diet := diet, early_morning := early_morning }
  let _total := userTotal logs1 user_id
  let _streak := compute_streak logs1 user_id today
  ({ s with logs := logs1 }, Except.error usersUpsertError)

lemma lookupLog_upsert (l : List (LogKey × LogRow)) (k : LogKey) (r : LogRow) :
    lookupLog (upsertLog l k r) k = some r := by
  simp [upsertLog, lookupLog]

/-- The users-table row of a user who saved a profile and has not yet
logged anything. -/
def freshUser : UserRow := create_user_row "Imran" "Cricket" 0 ""

/-- The users table holding only freshUser under id u. -/
def oneUserState : AppState := { logs := [], users := [("u", freshUser)] }

/-- Claim C4 (code bug): after the first submission of 3 hours, the sum
of hours over the log rows of the user is 3, but the stored
total_hours is still 0 — the users upsert fails on its malformed SQL
(WHERE user_id? at src/app.py 257) and the recomputed total is never
stored, so stored total_hours does not equal the sum of logged
hours. -/
theorem log_daily_entry_total_bug :
    userTotal (log_daily_entry oneUserState "u" true 3 false false false 0).1.logs "u" = 3 ∧
    (log_daily_entry oneUserState "u" true 3 false false false 0).1.users =
      [("u", freshUser)] ∧
    freshUser.total_hours = 0 ∧
    (log_daily_entry oneUserState "u" true 3 false false false 0).2 =
      Except.error usersUpsertError := by
  refine ⟨?_, rfl, rfl, rfl⟩
  norm_num [log_daily_entry, oneUserState, upsertLog, userTotal]

/-- Counterexample to claim C9: a submission with negative hours (-3)
and an empty user id is not rejected — the log row is written with
the hours value unchanged, so state is touched before any failure. -/
theorem log_entry_validation_cex :
    lookupLog (log_daily_entry { logs := [], users := [] } "" true (-3) false false false 0).1.logs
      ("", 0) = some { distraction_free := true, hours := -3, exercise := false,
                       diet := false, early_morning := false } ∧
    (log_daily_entry { logs := [], users := [] } "" true (-3) false false false 0).1.logs ≠ [] := by
  exact ⟨lookupLog_upsert [] ("", 0) _, by simp [log_daily_entry, upsertLog]⟩

/-- Claim C9 amended: log_daily_entry performs no input validation —
for any hours value, negative included, and any user id, empty
included, the log row is written with exactly the given values (hours
is never clamped); the user totals, streak, stage and badges are
nevertheless left unmodified, because the subsequent users upsert
fails on its malformed SQL. -/
theorem log_entry_no_validation (s : AppState) (user_id : String) (df : Bool) (hours : ℚ)
    (ex d em : Bool) (today : Int) (_hneg : hours < 0) :
    lookupLog (log_daily_entry s user_id df hours ex d em today).1.logs (user_id, today) =
      some { distraction_free := df, hours := hours, exercise := ex, diet := d,
             early_morning := em } ∧
    (log_daily_entry s user_id df hours ex d em today).1.users = s.users := by
  exact ⟨lookupLog_upsert s.logs (user_id, today) _, rfl⟩

/-- Witness for log_entry_no_validation at a concrete input. -/
theorem log_entry_no_validation_witness :
    lookupLog (log_daily_entry oneUserState "w" false (-1) true true true 2).1.logs ("w", 2) =
      some { distraction_free := false, hours := -1, exercise := true, diet := true,
             early_morning := true } ∧
    (log_daily_entry oneUserState "w" false (-1) true true true 2).1.users =
      oneUserState.users :=
  log_entry_no_validation oneUserState "w" false (-1) true true true 2 (by norm_num)

/- ----------------------------------------------------------------
   Stored stage versus stage badges (claim C8)
   ---------------------------------------------------------------- -/

/-- Modelled from the spec, not from the source: the rank of the
highest stage badge held (3 Gold, 2 Platinum, 1 Silver, 0 none),
used to compare the stored stage with the badge ledger. -/
def specHighestStageBadgeRank (badges : Finset String) : Nat :=
  if "Gold Stage" ∈ badges then 3
  else if "Platinum Stage" ∈ badges then 2
  else if "Silver Stage" ∈ badges then 1 else 0

/-- Counterexample to claim C8: the stage badge block of main never
writes hour_stage. After a non-qualifying submission the user holds
no stage badge, and after a Gold-qualifying submission the user holds
the Gold Stage badge, yet the stored stage is identical (1) in both
post-submission states — so the stored stage cannot equal the highest
stage badge held in both. -/
theorem stage_not_synced_cex :
    ((userStageBadgeStep freshUser (check_stage_conditions 0 false false false false 0).1).1).hour_stage =
      ((userStageBadgeStep freshUser (check_stage_conditions 6 true true true true 60).1).1).hour_stage ∧
    specHighestStageBadgeRank
      ((userStageBadgeStep freshUser (check_stage_conditions 0 false false false false 0).1).1).badges = 0 ∧
    specHighestStageBadgeRank
      ((userStageBadgeStep freshUser (check_stage_conditions 6 true true true true 60).1).1).badges = 3 := by
  refine ⟨?_, ?_, ?_⟩ <;> decide

/-- Claim C8 amended: no submission-path operation ever writes the
stored stage — the stage badge block and update_badges change only
the badges column, the users upsert of log_daily_entry fails before
writing, and a freshly created user starts at hour_stage 1. The
stored stage therefore never decreases (it is constant), but it is
not synchronized with the badge ledger and need not equal the highest
stage badge held. -/
theorem hour_stage_never_written :
    (∀ (u : UserRow) (st : Option String),
      ((userStageBadgeStep u st).1).hour_stage = u.hour_stage) ∧
    (∀ u : UserRow, (userUpdateBadges u).hour_stage = u.hour_stage) ∧
    (∀ (s : AppState) (uid : String) (df : Bool) (hours : ℚ) (ex d em : Bool) (today : Int),
      ((log_daily_entry s uid df hours ex d em today).1).users = s.users) ∧
    (∀ (nm f i : String) (today : Int), (create_user_row nm f today i).hour_stage = 1) := by
  refine ⟨fun u st => ?_, fun u => rfl, fun s uid df hours ex d em today => rfl,
    fun nm f i today => rfl⟩
  cases st with
  | none => rfl
  | some stg =>
    by_cases h : stageBadgeName stg ∈ u.badges
    · simp [userStageBadgeStep, h]
    · simp [userStageBadgeStep, h]

end Brain
